import Mathlib

/-!
Shallow embedding of `src/search_tool.py` (persian-search-tool).

The script loads a CSV as a pandas DataFrame of strings, cleans it
(`clean`: drop_duplicates on the "id" column, reset_index, normalize the
"title_fa" and "Category1" columns), then ingests it into a ChromaDB
collection in batches (`batch_insert_to_chromadb`: open the collection,
compute the batch count, and for each slice produced by `create_batches`
project ids / documents / metadatas and call `collection.add`).

Modelling choices:
  * A pandas row is a total function from column name to cell value
    (the CSV is read with `dtype=str`, so every cell is a string).
  * A DataFrame carries its column schema `cols` and its rows paired
    with their index labels (pandas keeps labels across
    `drop_duplicates`; `reset_index(drop=True)` relabels 0..n-1).
  * Reading a column that is not in the schema raises KeyError in
    pandas; fallible operations return `Except PyError`.
  * The external ChromaDB store is modelled as a trace of `StoreOp`
    operations plus a failure-injection function `fail` deciding, per
    `collection.add` call, whether the store raises (with an opaque
    message); the script itself never catches anything.
  * The external normalizer is an opaque parameter `nf : String → String`.
-/

/-- A pandas row: column name ↦ cell value (all cells are strings,
since the CSV is read with `dtype=str`). -/
abbrev Row := String → String

/-- Column assignment on one row: `row[c] := v` (pandas column
assignment, applied rowwise). -/
def Row.set (r : Row) (c v : String) : Row :=
  fun c' => if c' = c then v else r c'

/-- A pandas DataFrame: a column schema plus rows paired with their
index labels. -/
structure DataFrame where
  cols : List String
  rows : List (Nat × Row)

/-- Metadata record projected for ChromaDB: the two columns
`batch[["Category1", "sub_category"]]` of one row. -/
structure Meta where
  Category1 : String
  sub_category : String
deriving DecidableEq, Repr

/-- Python exceptions the script can raise (it installs no handlers, so
each propagates to the caller unchanged). -/
inductive PyError where
  /-- pandas KeyError: a column absent from the schema was read. -/
  | keyError (col : String)
  /-- ZeroDivisionError from `(len(data) + batch_size - 1) // batch_size`. -/
  | zeroDivisionError
  /-- An exception raised inside `collection.add` by the external store,
  carrying only the store's own opaque message. -/
  | storeError (msg : String)
deriving DecidableEq, Repr

/-- Observable operations against the external ChromaDB store. -/
inductive StoreOp where
  /-- Call `client.get_or_create_collection(name=...)` (inside `initialize_chromadb`). -/
  | openCollection (name : String)
  /-- A successful `collection.add(documents=..., ids=..., metadatas=...)`. -/
  | add (ids : List String) (documents : List String) (metadatas : List Meta)
deriving DecidableEq, Repr

/-- Ceiling division `(a + b - 1) / b` on naturals: the integer expression
`(len(data) + batch_size - 1) // batch_size` the script uses to count
batches (for `b ≥ 1` this is the ceiling of `a / b`). -/
def cdiv (a b : Nat) : Nat := (a + b - 1) / b

/-- The ascending arithmetic progression `start, start+step, ...` of
naturals below `stop`: Python `range(start, stop, step)` for a positive
step. Structural recursion on a fuel argument; any fuel
`≥ stop - start` gives the full progression (a positive step raises
`start` each iteration, so `stop` itself always suffices as fuel). -/
def pyRangeAux (stop step : Nat) : Nat → Nat → List Nat
  | 0, _ => []
  | fuel + 1, start =>
    if start < stop ∧ 0 < step then start :: pyRangeAux stop step fuel (start + step)
    else []

/-- Python `range(0, stop, step)` for an integer step, as used by
`create_batches`. A step `≤ -1` yields the empty range (since
`stop ≥ 0`). Python raises ValueError on step `= 0`, but the pipeline
never reaches that case: `batch_insert_to_chromadb` hits
ZeroDivisionError first, so the `[]` returned here for step `= 0` is
never exercised. -/
def pyRange (stop : Nat) (step : Int) : List Int :=
  if 1 ≤ step then (pyRangeAux stop step.toNat stop 0).map Int.ofNat
  else []

/-- Slice `df.iloc[lo:hi]`: positional, keeping index labels. Negative
positions (Python's from-the-end indexing) are unreachable in this
pipeline, since `create_batches` only slices at `lo = i ≥ 0`,
`hi = i + batch_size` with `batch_size ≥ 1`. -/
def DataFrame.ilocSlice (df : DataFrame) (lo hi : Int) : DataFrame :=
  ⟨df.cols, (df.rows.drop lo.toNat).take (hi - lo).toNat⟩

/-- Model of `create_batches(df, batch_size)`: the finite sequence of DataFrame
slices `df.iloc[i : i + batch_size]` for `i in range(0, len(df), batch_size)`. -/
def create_batches (df : DataFrame) (batch_size : Int) : List DataFrame :=
  (pyRange df.rows.length batch_size).map
    (fun i => df.ilocSlice i (i + batch_size))

/-- Model of `dataframe.drop_duplicates(subset="id")` on the labelled rows: keep
a row iff its raw "id" cell has not been seen earlier (first
occurrence wins); `seen` accumulates the ids already kept. -/
def dropDupFirst : List (Nat × Row) → List String → List (Nat × Row)
  | [], _ => []
  | p :: t, seen =>
    if p.2 "id" ∈ seen then dropDupFirst t seen
    else p :: dropDupFirst t (p.2 "id" :: seen)

/-- Model of `dataframe.drop_duplicates(subset="id")` at the DataFrame level
(index labels of surviving rows are kept, as pandas does). -/
def DataFrame.drop_duplicates_id (df : DataFrame) : DataFrame :=
  ⟨df.cols, dropDupFirst df.rows []⟩

/-- Model of `dataframe.reset_index(drop=True)`: relabel the rows 0..n-1. -/
def DataFrame.reset_index (df : DataFrame) : DataFrame :=
  ⟨df.cols, (df.rows.map Prod.snd).enum⟩

/-- Model of `dataframe[c] = dataframe[c].apply(f)`: replace column `c` by its
image under `f`, rowwise. -/
def DataFrame.mapCol (df : DataFrame) (c : String) (f : String → String) : DataFrame :=
  ⟨df.cols, df.rows.map fun p => (p.1, Row.set p.2 c (f (p.2 c)))⟩

/-- Model of `clean(dataframe)`, parameterized by the external normalizer `nf`:
`drop_duplicates(subset="id").reset_index(drop=True)`, then normalize
the "title_fa" column, then the "Category1" column. pandas raises
KeyError at the first read of an absent column, in exactly this
order. -/
def clean (nf : String → String) (df : DataFrame) : Except PyError DataFrame :=
  if "id" ∈ df.cols then
    let d1 := (df.drop_duplicates_id).reset_index
    if "title_fa" ∈ d1.cols then
      let d2 := d1.mapCol "title_fa" nf
      if "Category1" ∈ d2.cols then
        Except.ok (d2.mapCol "Category1" nf)
      else Except.error (.keyError "Category1")
    else Except.error (.keyError "title_fa")
  else Except.error (.keyError "id")

/-- The projection half of `insert_batch_into_chromadb(collection, batch)`:
`documents = batch["title_fa"].tolist()`, `ids = batch["id"].tolist()`,
`metadatas = batch[["Category1", "sub_category"]].to_dict(orient="records")`,
assembled into the `collection.add` call it performs. pandas raises
KeyError at the first absent column, in source reading order. Whether
the `add` call itself succeeds is decided by the store (failure
injection in `ingestLoop`). -/
def insert_batch_into_chromadb (batch : DataFrame) : Except PyError StoreOp :=
  if "title_fa" ∈ batch.cols then
    if "id" ∈ batch.cols then
      if "Category1" ∈ batch.cols then
        if "sub_category" ∈ batch.cols then
          Except.ok (StoreOp.add
            (batch.rows.map fun p => p.2 "id")
            (batch.rows.map fun p => p.2 "title_fa")
            (batch.rows.map fun p => ⟨p.2 "Category1", p.2 "sub_category"⟩))
        else Except.error (.keyError "sub_category")
      else Except.error (.keyError "Category1")
    else Except.error (.keyError "id")
  else Except.error (.keyError "title_fa")

/-- The `for batch in create_batches(data, batch_size)` loop of
`batch_insert_to_chromadb`: `n` counts the batches already written
(both the 0-based index of the next `collection.add` call, used by the
failure injection `fail`, and the tqdm progress counter, since
`pbar.update(1)` runs once after each successful insert). Returns the
trace of successful `add` operations and either the final counter or
the first uncaught exception. -/
def ingestLoop (fail : Nat → Option String) :
    List DataFrame → Nat → List StoreOp × Except PyError Nat
  | [], n => ([], Except.ok n)
  | batch :: rest, n =>
    match insert_batch_into_chromadb batch with
    | Except.error e => ([], Except.error e)
    | Except.ok op =>
      match fail n with
      | some msg => ([], Except.error (.storeError msg))
      | none =>
        let r := ingestLoop fail rest (n + 1)
        (op :: r.1, r.2)

/-- Result of one `batch_insert_to_chromadb` run: the store-operation
trace, the `total` handed to the tqdm progress bar (`none` when
ZeroDivisionError strikes before tqdm is reached), and the final
progress count or the propagated exception. -/
structure IngestResult where
  ops : List StoreOp
  pbarTotal : Option Int
  result : Except PyError Nat
deriving Repr

/-- Model of `batch_insert_to_chromadb(collection_name, data, batch_size)`:
first `initialize_chromadb(collection_name)` opens/creates the
collection; then `total_batches = (len(data) + batch_size - 1) //
batch_size` — Python `//` is floor division `Int.fdiv`, and raises
ZeroDivisionError when `batch_size = 0`; then the batch loop runs with
a tqdm bar of that total. -/
def batch_insert_to_chromadb (fail : Nat → Option String)
    (collection_name : String) (data : DataFrame) (batch_size : Int) :
    IngestResult :=
  if batch_size = 0 then
    ⟨[StoreOp.openCollection collection_name], none, Except.error .zeroDivisionError⟩
  else
    let total := (Int.ofNat data.rows.length + batch_size - 1).fdiv batch_size
    let r := ingestLoop fail (create_batches data batch_size) 0
    ⟨StoreOp.openCollection collection_name :: r.1, some total, r.2⟩

/-- The `__main__` pipeline after the CSV is loaded: `data = clean(df)`
then `batch_insert_to_chromadb(collection_name, data, batch_size)`. If
`clean` raises, nothing is ever asked of the store (empty trace). -/
def runPipeline (nf : String → String) (fail : Nat → Option String)
    (collection_name : String) (df : DataFrame) (batch_size : Int) :
    List StoreOp × Except PyError Nat :=
  match clean nf df with
  | Except.error e => ([], Except.error e)
  | Except.ok data =>
    let r := batch_insert_to_chromadb fail collection_name data batch_size
    (r.ops, r.result)

/-! Concrete data used by witnesses and counterexamples. -/

/-- A concrete row over the four columns of the dataset. -/
def mkRow (i t c s : String) : Row :=
  fun col =>
    if col = "id" then i
    else if col = "title_fa" then t
    else if col = "Category1" then c
    else if col = "sub_category" then s
    else ""

/-- The schema of the dataset. -/
def theCols : List String := ["id", "title_fa", "Category1", "sub_category"]

/-- Scenario-A style input: five rows with ids 1,2,2,3,4 (one duplicate). -/
def dfA : DataFrame :=
  ⟨theCols,
    [(0, mkRow "1" "t1" "c1" "s1"),
     (1, mkRow "2" "t2" "c2" "s2"),
     (2, mkRow "2" "t2x" "c2x" "s2x"),
     (3, mkRow "3" "t3" "c3" "s3"),
     (4, mkRow "4" "t4" "c4" "s4")]⟩

/-- A six-row duplicate-free input (used for batching and failure
scenarios). -/
def dfB : DataFrame :=
  ⟨theCols,
    [(0, mkRow "1" "t1" "c1" "s1"),
     (1, mkRow "2" "t2" "c2" "s2"),
     (2, mkRow "3" "t3" "c3" "s3"),
     (3, mkRow "4" "t4" "c4" "s4"),
     (4, mkRow "5" "t5" "c5" "s5"),
     (5, mkRow "6" "t6" "c6" "s6")]⟩

/-- An input with the right schema and no rows. -/
def dfEmpty : DataFrame := ⟨theCols, []⟩

/-- An input missing the "title_fa" column. -/
def dfNoTitle : DataFrame :=
  ⟨["id", "Category1", "sub_category"], [(0, mkRow "1" "t1" "c1" "s1")]⟩

/-- Failure injection that never fires (the store always succeeds). -/
def noFail : Nat → Option String := fun _ => none

/-- Failure injection: the store raises message `msg` on its `k`-th
`add` call (0-based) and succeeds on every other. -/
def failAt (k : Nat) (msg : String) : Nat → Option String :=
  fun n => if n = k then some msg else none

/-! ### Basic facts about the embedding -/

theorem Row.set_self (r : Row) (c v : String) : Row.set r c v c = v := by
  simp [Row.set]

theorem Row.set_ne (r : Row) (v : String) {c' c : String} (h : c' ≠ c) :
    Row.set r c v c' = r c' := by
  simp [Row.set, h]

theorem cdiv_zero_left (step : Nat) : cdiv 0 step = 0 := by
  cases step with
  | zero => simp [cdiv]
  | succ s =>
    simp only [cdiv, Nat.zero_add]
    exact Nat.div_eq_of_lt (by omega)

theorem cdiv_succ_step {d step : Nat} (hs : 0 < step) (hd : 0 < d) :
    cdiv d step = cdiv (d - step) step + 1 := by
  rcases le_or_lt d step with h | h
  · have h1 : d - step = 0 := by omega
    have h2 : d + step - 1 = (d - 1) + step := by omega
    have h3 : (d - 1) / step = 0 := Nat.div_eq_of_lt (by omega)
    rw [h1, cdiv_zero_left]
    simp only [cdiv, h2, Nat.add_div_right _ hs, h3]
  · have h2 : d + step - 1 = (d - step + step - 1) + step := by omega
    simp only [cdiv, h2, Nat.add_div_right _ hs]

theorem pyRangeAux_eq (stop step : Nat) (hs : 0 < step) :
    ∀ fuel start, stop - start ≤ fuel →
      pyRangeAux stop step fuel start
        = (List.range (cdiv (stop - start) step)).map (fun t => start + t * step) := by
  intro fuel
  induction fuel with
  | zero =>
    intro start h
    have h0 : stop - start = 0 := by omega
    rw [pyRangeAux, h0, cdiv_zero_left]
    simp
  | succ fuel ih =>
    intro start h
    by_cases hlt : start < stop
    · rw [pyRangeAux, if_pos ⟨hlt, hs⟩, ih (start + step) (by omega)]
      have hc : cdiv (stop - start) step = cdiv (stop - (start + step)) step + 1 := by
        have hstep := cdiv_succ_step (d := stop - start) hs (by omega)
        have he : stop - start - step = stop - (start + step) := by omega
        rw [he] at hstep
        exact hstep
      rw [hc, List.range_succ_eq_map, List.map_cons, List.map_map]
      have hfun : ((fun t => start + t * step) ∘ Nat.succ)
          = (fun t => (start + step) + t * step) := by
        funext t
        simp only [Function.comp_apply, Nat.succ_eq_add_one]
        ring
      rw [hfun]
      simp
    · rw [pyRangeAux, if_neg (by omega)]
      have h0 : stop - start = 0 := by omega
      rw [h0, cdiv_zero_left]
      simp

theorem pyRangeAux_closed (stop step : Nat) (hs : 0 < step) :
    pyRangeAux stop step stop 0
      = (List.range (cdiv stop step)).map (fun t => t * step) := by
  have h := pyRangeAux_eq stop step hs stop 0 (by omega)
  simpa using h

theorem create_batches_eq (df : DataFrame) (b : Int) (hb : 1 ≤ b) :
    create_batches df b
      = (List.range (cdiv df.rows.length b.toNat)).map
          (fun k => ⟨df.cols, (df.rows.drop (k * b.toNat)).take b.toNat⟩) := by
  have hb0 : 0 < b.toNat := by omega
  unfold create_batches pyRange
  rw [if_pos hb, pyRangeAux_closed _ _ hb0, List.map_map, List.map_map]
  congr 1
  funext t
  have h1 : (Int.ofNat (t * b.toNat)) + b - (Int.ofNat (t * b.toNat)) = b := by ring
  simp [DataFrame.ilocSlice, Function.comp_def, h1]

theorem create_batches_length (df : DataFrame) (b : Int) (hb : 1 ≤ b) :
    (create_batches df b).length = cdiv df.rows.length b.toNat := by
  rw [create_batches_eq df b hb]
  simp

theorem create_batches_get (df : DataFrame) (b : Int) (hb : 1 ≤ b)
    (k : Nat) (hk : k < (create_batches df b).length) :
    (create_batches df b).get ⟨k, hk⟩
      = ⟨df.cols, (df.rows.drop (k * b.toNat)).take b.toNat⟩ := by
  have hk2 : k < cdiv df.rows.length b.toNat := by
    rw [← create_batches_length df b hb]
    exact hk
  simp [List.get_eq_getElem, create_batches_eq df b hb, hk2]

theorem slices_flatten {α : Type} (l : List α) (step : Nat) (hs : 0 < step) :
    ∀ fuel start, l.length - start ≤ fuel →
      ((pyRangeAux l.length step fuel start).map
          (fun i => (l.drop i).take step)).flatten
        = l.drop start := by
  intro fuel
  induction fuel with
  | zero =>
    intro start h
    rw [pyRangeAux]
    simp only [List.map_nil, List.flatten_nil]
    exact (List.drop_eq_nil_iff.mpr (by omega)).symm
  | succ fuel ih =>
    intro start h
    by_cases hlt : start < l.length
    · rw [pyRangeAux, if_pos ⟨hlt, hs⟩]
      simp only [List.map_cons, List.flatten_cons]
      rw [ih (start + step) (by omega)]
      have h2 := List.take_append_drop step (l.drop start)
      rw [List.drop_drop] at h2
      exact h2
    · rw [pyRangeAux, if_neg (by omega)]
      simp only [List.map_nil, List.flatten_nil]
      exact (List.drop_eq_nil_iff.mpr (by omega)).symm

theorem create_batches_flatten (df : DataFrame) (b : Int) (hb : 1 ≤ b) :
    ((create_batches df b).map DataFrame.rows).flatten = df.rows := by
  have hb0 : 0 < b.toNat := by omega
  have h := slices_flatten df.rows b.toNat hb0 df.rows.length 0 (by omega)
  rw [pyRangeAux_closed _ _ hb0, List.map_map] at h
  simp only [List.drop_zero] at h
  rw [create_batches_eq df b hb, List.map_map]
  exact h

theorem cdiv_le_iff {n s m : Nat} (hs : 0 < s) : cdiv n s ≤ m ↔ n ≤ m * s := by
  unfold cdiv
  rw [← Nat.lt_succ_iff, Nat.div_lt_iff_lt_mul hs, Nat.succ_mul]
  omega

theorem create_batches_get_length (df : DataFrame) (b : Int) (hb : 1 ≤ b)
    (k : Nat) (hk : k + 1 < (create_batches df b).length) :
    ((create_batches df b).get ⟨k, by omega⟩).rows.length = b.toNat := by
  have hb0 : 0 < b.toNat := by omega
  have hlen := create_batches_length df b hb
  have hmul : (k + 1) * b.toNat < df.rows.length := by
    by_contra hcon
    have hle := (cdiv_le_iff hb0).mpr (by omega : df.rows.length ≤ (k + 1) * b.toNat)
    omega
  rw [create_batches_get df b hb k (by omega)]
  have hexp : (k + 1) * b.toNat = k * b.toNat + b.toNat := by ring
  simp only [List.length_take, List.length_drop]
  omega

theorem create_batches_cols (df : DataFrame) (b : Int) :
    ∀ batch ∈ create_batches df b, batch.cols = df.cols := by
  intro batch hbatch
  simp only [create_batches, List.mem_map] at hbatch
  obtain ⟨i, _, rfl⟩ := hbatch
  rfl

theorem dropDupFirst_subset :
    ∀ (l : List (Nat × Row)) (seen : List String) (p : Nat × Row),
      p ∈ dropDupFirst l seen → p ∈ l := by
  intro l
  induction l with
  | nil => simp [dropDupFirst]
  | cons q t ih =>
    intro seen p hp
    simp only [dropDupFirst] at hp
    by_cases hq : q.2 "id" ∈ seen
    · rw [if_pos hq] at hp
      exact List.mem_cons_of_mem _ (ih _ _ hp)
    · rw [if_neg hq] at hp
      rcases List.mem_cons.mp hp with h | h
      · exact h ▸ List.mem_cons_self _ _
      · exact List.mem_cons_of_mem _ (ih _ _ h)

theorem dropDupFirst_ids_nodup :
    ∀ (l : List (Nat × Row)) (seen : List String),
      ((dropDupFirst l seen).map (fun p => p.2 "id")).Nodup
        ∧ ∀ v ∈ (dropDupFirst l seen).map (fun p => p.2 "id"), v ∉ seen := by
  intro l
  induction l with
  | nil => intro seen; simp [dropDupFirst]
  | cons q t ih =>
    intro seen
    simp only [dropDupFirst]
    by_cases hq : q.2 "id" ∈ seen
    · rw [if_pos hq]
      exact ih seen
    · rw [if_neg hq]
      obtain ⟨hnd, hns⟩ := ih (q.2 "id" :: seen)
      refine ⟨?_, ?_⟩
      · simp only [List.map_cons, List.nodup_cons]
        exact ⟨fun hmem => (hns _ hmem) (List.mem_cons_self _ _), hnd⟩
      · intro v hv
        simp only [List.map_cons, List.mem_cons] at hv
        rcases hv with rfl | hv
        · exact hq
        · exact fun hvseen => (hns v hv) (List.mem_cons_of_mem _ hvseen)

theorem dropDupFirst_find? (v : String) (p0 : Nat × Row) :
    ∀ (l : List (Nat × Row)) (seen : List String), v ∉ seen →
      l.find? (fun p => p.2 "id" == v) = some p0 →
      (dropDupFirst l seen).find? (fun p => p.2 "id" == v) = some p0 := by
  intro l
  induction l with
  | nil =>
    intro seen _ h
    simp [List.find?] at h
  | cons q t ih =>
    intro seen hv h
    cases hbeq : (q.2 "id" == v) with
    | true =>
      have hqv : q.2 "id" = v := by simpa using hbeq
      rw [List.find?_cons, hbeq] at h
      simp only [dropDupFirst]
      rw [if_neg (hqv ▸ hv)]
      rw [List.find?_cons, hbeq]
      exact h
    | false =>
      rw [List.find?_cons, hbeq] at h
      simp only [dropDupFirst]
      by_cases hq : q.2 "id" ∈ seen
      · rw [if_pos hq]
        exact ih seen hv h
      · rw [if_neg hq]
        rw [List.find?_cons, hbeq]
        have hvq : v ∉ (q.2 "id" :: seen) := by
          intro hmem
          rcases List.mem_cons.mp hmem with he | he
          · rw [he] at hbeq
            simp at hbeq
          · exact hv he
        exact ih _ hvq h

theorem exists_mem_enum_of_mem {α : Type} {r : α} {l : List α} (h : r ∈ l) :
    ∃ i, i < l.length ∧ (i, r) ∈ l.enum := by
  obtain ⟨i, hi, rfl⟩ := List.mem_iff_getElem.mp h
  refine ⟨i, hi, ?_⟩
  have hlen : i < l.enum.length := by
    rw [List.enum_length]
    exact hi
  have he := List.getElem_enum l i hlen
  rw [← he]
  exact List.getElem_mem hlen

theorem cleanRow_fields (nf : String → String) (r : Row) :
    (Row.set (Row.set r "title_fa" (nf (r "title_fa"))) "Category1"
        (nf (Row.set r "title_fa" (nf (r "title_fa")) "Category1"))) "id" = r "id"
    ∧ (Row.set (Row.set r "title_fa" (nf (r "title_fa"))) "Category1"
        (nf (Row.set r "title_fa" (nf (r "title_fa")) "Category1"))) "title_fa"
        = nf (r "title_fa")
    ∧ (Row.set (Row.set r "title_fa" (nf (r "title_fa"))) "Category1"
        (nf (Row.set r "title_fa" (nf (r "title_fa")) "Category1"))) "Category1"
        = nf (r "Category1")
    ∧ ∀ c, c ≠ "title_fa" → c ≠ "Category1" →
        (Row.set (Row.set r "title_fa" (nf (r "title_fa"))) "Category1"
          (nf (Row.set r "title_fa" (nf (r "title_fa")) "Category1"))) c = r c := by
  refine ⟨?_, ?_, ?_, ?_⟩
  · rw [Row.set_ne _ _ (show "id" ≠ "Category1" by decide),
        Row.set_ne _ _ (show "id" ≠ "title_fa" by decide)]
  · rw [Row.set_ne _ _ (show "title_fa" ≠ "Category1" by decide), Row.set_self]
  · rw [Row.set_self, Row.set_ne _ _ (show ("Category1" : String) ≠ "title_fa" by decide)]
  · intro c hc1 hc2
    rw [Row.set_ne _ _ hc2, Row.set_ne _ _ hc1]

theorem clean_ok (nf : String → String) (df : DataFrame)
    (h1 : "id" ∈ df.cols) (h2 : "title_fa" ∈ df.cols) (h3 : "Category1" ∈ df.cols) :
    clean nf df
      = Except.ok (((df.drop_duplicates_id).reset_index.mapCol "title_fa" nf).mapCol
          "Category1" nf) := by
  unfold clean
  rw [if_pos h1,
    if_pos (show "title_fa" ∈ ((df.drop_duplicates_id).reset_index).cols from h2),
    if_pos (show "Category1"
      ∈ (((df.drop_duplicates_id).reset_index).mapCol "title_fa" nf).cols from h3)]

theorem clean_ok_rows (nf : String → String) (df : DataFrame) :
    (((df.drop_duplicates_id).reset_index.mapCol "title_fa" nf).mapCol
        "Category1" nf).rows
      = ((dropDupFirst df.rows []).map Prod.snd).enum.map
          (fun p => (p.1,
            Row.set (Row.set p.2 "title_fa" (nf (p.2 "title_fa"))) "Category1"
              (nf (Row.set p.2 "title_fa" (nf (p.2 "title_fa")) "Category1")))) := by
  simp only [DataFrame.mapCol, DataFrame.reset_index, DataFrame.drop_duplicates_id,
    List.map_map]
  rfl

theorem insert_batch_ok (batch : DataFrame)
    (h1 : "title_fa" ∈ batch.cols) (h2 : "id" ∈ batch.cols)
    (h3 : "Category1" ∈ batch.cols) (h4 : "sub_category" ∈ batch.cols) :
    insert_batch_into_chromadb batch
      = Except.ok (StoreOp.add
          (batch.rows.map fun p => p.2 "id")
          (batch.rows.map fun p => p.2 "title_fa")
          (batch.rows.map fun p => ⟨p.2 "Category1", p.2 "sub_category"⟩)) := by
  unfold insert_batch_into_chromadb
  rw [if_pos h1, if_pos h2, if_pos h3, if_pos h4]

theorem ingestLoop_all_ok (fail : Nat → Option String) (hf : ∀ n, fail n = none) :
    ∀ (bs : List DataFrame) (n : Nat),
      (∀ batch ∈ bs, "title_fa" ∈ batch.cols ∧ "id" ∈ batch.cols ∧
        "Category1" ∈ batch.cols ∧ "sub_category" ∈ batch.cols) →
      ingestLoop fail bs n
        = (bs.map (fun batch => StoreOp.add
            (batch.rows.map fun p => p.2 "id")
            (batch.rows.map fun p => p.2 "title_fa")
            (batch.rows.map fun p => ⟨p.2 "Category1", p.2 "sub_category"⟩)),
          Except.ok (n + bs.length)) := by
  intro bs
  induction bs with
  | nil =>
    intro n _
    simp [ingestLoop]
  | cons batch rest ih =>
    intro n hcols
    obtain ⟨hc1, hc2, hc3, hc4⟩ := hcols batch (List.mem_cons_self _ _)
    simp only [ingestLoop, insert_batch_ok batch hc1 hc2 hc3 hc4, hf n]
    rw [ih (n + 1) (fun b hb => hcols b (List.mem_cons_of_mem _ hb))]
    simp only [List.map_cons, List.length_cons, Prod.mk.injEq, true_and]
    congr 1
    omega

theorem ingestLoop_fail_at (fail : Nat → Option String) (msg : String) :
    ∀ (bs : List DataFrame) (n t : Nat),
      (∀ j, j < t → fail (n + j) = none) → fail (n + t) = some msg →
      t < bs.length →
      (∀ batch ∈ bs, "title_fa" ∈ batch.cols ∧ "id" ∈ batch.cols ∧
        "Category1" ∈ batch.cols ∧ "sub_category" ∈ batch.cols) →
      ingestLoop fail bs n
        = ((bs.take t).map (fun batch => StoreOp.add
            (batch.rows.map fun p => p.2 "id")
            (batch.rows.map fun p => p.2 "title_fa")
            (batch.rows.map fun p => ⟨p.2 "Category1", p.2 "sub_category"⟩)),
          Except.error (.storeError msg)) := by
  intro bs
  induction bs with
  | nil =>
    intro n t _ _ ht _
    simp at ht
  | cons batch rest ih =>
    intro n t hprev hfail ht hcols
    obtain ⟨hc1, hc2, hc3, hc4⟩ := hcols batch (List.mem_cons_self _ _)
    cases t with
    | zero =>
      have h0 : fail n = some msg := by simpa using hfail
      simp [ingestLoop, insert_batch_ok batch hc1 hc2 hc3 hc4, h0]
    | succ u =>
      have h0 : fail n = none := by
        have hp := hprev 0 (by omega)
        simpa using hp
      simp only [ingestLoop, insert_batch_ok batch hc1 hc2 hc3 hc4, h0]
      rw [ih (n + 1) u
        (fun j hj => by
          have hp := hprev (j + 1) (by omega)
          rw [show n + (j + 1) = n + 1 + j by omega] at hp
          exact hp)
        (by rw [show n + 1 + u = n + (u + 1) by omega]; exact hfail)
        (by simpa using ht)
        (fun b hb => hcols b (List.mem_cons_of_mem _ hb))]
      simp

theorem fdiv_total_eq (n : Nat) (b : Int) (hb : 1 ≤ b) :
    (Int.ofNat n + b - 1).fdiv b = Int.ofNat (cdiv n b.toNat) := by
  have h := Int.ofNat_fdiv (n + b.toNat - 1) b.toNat
  simp only [Int.ofNat_eq_coe] at h ⊢
  rw [show ((b.toNat : Nat) : Int) = b by omega] at h
  rw [show (n : Int) + b - 1 = ((n + b.toNat - 1 : Nat) : Int) by omega, ← h]
  rfl

theorem batch_insert_all_ok (fail : Nat → Option String) (hf : ∀ n, fail n = none)
    (name : String) (data : DataFrame) (b : Int) (hb : 1 ≤ b)
    (h1 : "title_fa" ∈ data.cols) (h2 : "id" ∈ data.cols)
    (h3 : "Category1" ∈ data.cols) (h4 : "sub_category" ∈ data.cols) :
    batch_insert_to_chromadb fail name data b
      = ⟨StoreOp.openCollection name
            :: (create_batches data b).map (fun batch =>
              StoreOp.add
                (batch.rows.map fun p => p.2 "id")
                (batch.rows.map fun p => p.2 "title_fa")
                (batch.rows.map fun p => ⟨p.2 "Category1", p.2 "sub_category"⟩)),
          some (Int.ofNat (cdiv data.rows.length b.toNat)),
          Except.ok (cdiv data.rows.length b.toNat)⟩ := by
  have hcols : ∀ batch ∈ create_batches data b, "title_fa" ∈ batch.cols
      ∧ "id" ∈ batch.cols ∧ "Category1" ∈ batch.cols ∧ "sub_category" ∈ batch.cols := by
    intro batch hbm
    rw [create_batches_cols data b batch hbm]
    exact ⟨h1, h2, h3, h4⟩
  have hloop := ingestLoop_all_ok fail hf (create_batches data b) 0 hcols
  have htot := fdiv_total_eq data.rows.length b hb
  have hlen := create_batches_length data b hb
  unfold batch_insert_to_chromadb
  rw [if_neg (by omega : ¬ b = 0)]
  simp only [hloop, htot, hlen, Nat.zero_add]

theorem batch_insert_fail_k (fail : Nat → Option String) (msg : String)
    (name : String) (data : DataFrame) (b : Int) (k : Nat) (hb : 1 ≤ b)
    (h1 : "title_fa" ∈ data.cols) (h2 : "id" ∈ data.cols)
    (h3 : "Category1" ∈ data.cols) (h4 : "sub_category" ∈ data.cols)
    (hprev : ∀ j, j < k → fail j = none) (hk : fail k = some msg)
    (hlt : k < (create_batches data b).length) :
    batch_insert_to_chromadb fail name data b
      = ⟨StoreOp.openCollection name
            :: ((create_batches data b).take k).map (fun batch =>
              StoreOp.add
                (batch.rows.map fun p => p.2 "id")
                (batch.rows.map fun p => p.2 "title_fa")
                (batch.rows.map fun p => ⟨p.2 "Category1", p.2 "sub_category"⟩)),
          some (Int.ofNat (cdiv data.rows.length b.toNat)),
          Except.error (PyError.storeError msg)⟩ := by
  have hcols : ∀ batch ∈ create_batches data b, "title_fa" ∈ batch.cols
      ∧ "id" ∈ batch.cols ∧ "Category1" ∈ batch.cols ∧ "sub_category" ∈ batch.cols := by
    intro batch hbm
    rw [create_batches_cols data b batch hbm]
    exact ⟨h1, h2, h3, h4⟩
  have hloop := ingestLoop_fail_at fail msg (create_batches data b) 0 k
    (fun j hj => by simpa using hprev j hj) (by simpa using hk) hlt hcols
  have htot := fdiv_total_eq data.rows.length b hb
  unfold batch_insert_to_chromadb
  rw [if_neg (by omega : ¬ b = 0)]
  simp only [hloop, htot]

/-! ### Claims -/

/-- C2: for every Record Set and every `batch_size = b ≥ 1`, the
Batcher's batches partition the Record Set: concatenating all batches in
order reproduces the rows exactly; batch `k` covers rows
`[k*b, min((k+1)*b, n))`; the number of batches is
`ceil(n/b) = (n + b - 1) / b`; and every batch except possibly the last
has exactly `b` rows. -/
theorem create_batches_partition (df : DataFrame) (b : Int) (hb : 1 ≤ b) :
    ((create_batches df b).map DataFrame.rows).flatten = df.rows
    ∧ (create_batches df b).length = cdiv df.rows.length b.toNat
    ∧ (∀ k, ∀ hk : k < (create_batches df b).length,
        ((create_batches df b).get ⟨k, hk⟩).rows
          = (df.rows.drop (k * b.toNat)).take b.toNat)
    ∧ (∀ k, ∀ hk : k + 1 < (create_batches df b).length,
        ((create_batches df b).get ⟨k, by omega⟩).rows.length = b.toNat) := by
  refine ⟨create_batches_flatten df b hb, create_batches_length df b hb, ?_, ?_⟩
  · intro k hk
    rw [create_batches_get df b hb k hk]
  · intro k hk
    exact create_batches_get_length df b hb k hk

/-- Witness for C2 at a concrete six-row input with batch size 4
(batches of sizes 4 and 2). -/
theorem create_batches_partition_witness :
    ((1 : Int) ≤ 4)
    ∧ (((create_batches dfB 4).map DataFrame.rows).flatten = dfB.rows
      ∧ (create_batches dfB 4).length = cdiv dfB.rows.length (4 : Int).toNat
      ∧ (∀ k, ∀ hk : k < (create_batches dfB 4).length,
          ((create_batches dfB 4).get ⟨k, hk⟩).rows
            = (dfB.rows.drop (k * (4 : Int).toNat)).take (4 : Int).toNat)
      ∧ (∀ k, ∀ hk : k + 1 < (create_batches dfB 4).length,
          ((create_batches dfB 4).get ⟨k, by omega⟩).rows.length
            = (4 : Int).toNat)) :=
  ⟨by decide, create_batches_partition dfB 4 (by decide)⟩

/-- C9: the Batcher is deterministic and restartable — any two
invocations of `create_batches` on the same inputs produce the same
finite sequence of batches (whose length is the finite batch count
`ceil(n/b)`). -/
theorem create_batches_restartable (df1 df2 : DataFrame) (b1 b2 : Int)
    (hdf : df1 = df2) (hb : b1 = b2) (hpos : 1 ≤ b1) :
    create_batches df1 b1 = create_batches df2 b2
    ∧ (create_batches df1 b1).length = cdiv df1.rows.length b1.toNat := by
  subst hdf
  subst hb
  exact ⟨rfl, create_batches_length df1 b1 hpos⟩

/-- Witness for C9: two invocations on the six-row input with batch
size 2. -/
theorem create_batches_restartable_witness :
    (dfB = dfB) ∧ ((2 : Int) = 2) ∧ ((1 : Int) ≤ 2)
    ∧ (create_batches dfB 2 = create_batches dfB 2
      ∧ (create_batches dfB 2).length = cdiv dfB.rows.length (2 : Int).toNat) :=
  ⟨rfl, rfl, by decide, create_batches_restartable dfB dfB 2 2 rfl rfl (by decide)⟩

/-- C5: for every batch whose schema has the four dataset columns, the
Ingestor's projection produces three parallel sequences of equal length,
one entry per record, in batch order: ids from the "id" field, documents
from the "title_fa" field, and metadatas holding exactly the "Category1"
and "sub_category" fields of each record. -/
theorem insert_batch_projection (batch : DataFrame)
    (h1 : "title_fa" ∈ batch.cols) (h2 : "id" ∈ batch.cols)
    (h3 : "Category1" ∈ batch.cols) (h4 : "sub_category" ∈ batch.cols) :
    insert_batch_into_chromadb batch
      = Except.ok (StoreOp.add
          (batch.rows.map fun p => p.2 "id")
          (batch.rows.map fun p => p.2 "title_fa")
          (batch.rows.map fun p => ⟨p.2 "Category1", p.2 "sub_category"⟩))
    ∧ (batch.rows.map fun p => p.2 "id").length = batch.rows.length
    ∧ (batch.rows.map fun p => p.2 "title_fa").length = batch.rows.length
    ∧ (batch.rows.map fun p =>
        (⟨p.2 "Category1", p.2 "sub_category"⟩ : Meta)).length
        = batch.rows.length := by
  refine ⟨insert_batch_ok batch h1 h2 h3 h4, ?_, ?_, ?_⟩ <;> simp

/-- Witness for C5 at the five-row input. -/
theorem insert_batch_projection_witness :
    ("title_fa" ∈ dfA.cols) ∧ ("id" ∈ dfA.cols) ∧ ("Category1" ∈ dfA.cols)
    ∧ ("sub_category" ∈ dfA.cols)
    ∧ (insert_batch_into_chromadb dfA
        = Except.ok (StoreOp.add
            (dfA.rows.map fun p => p.2 "id")
            (dfA.rows.map fun p => p.2 "title_fa")
            (dfA.rows.map fun p => ⟨p.2 "Category1", p.2 "sub_category"⟩))
      ∧ (dfA.rows.map fun p => p.2 "id").length = dfA.rows.length
      ∧ (dfA.rows.map fun p => p.2 "title_fa").length = dfA.rows.length
      ∧ (dfA.rows.map fun p =>
          (⟨p.2 "Category1", p.2 "sub_category"⟩ : Meta)).length
          = dfA.rows.length) :=
  ⟨by decide, by decide, by decide, by decide,
    insert_batch_projection dfA (by decide) (by decide) (by decide) (by decide)⟩

/-- C7: for every Record Set of size `n`, batch size `b ≥ 1` and a store
that never fails, the Ingestor computes
`totalBatches = (n + b - 1) // b = ceil(n/b)` (handed to the progress
bar), performs exactly one `add` per batch, and its progress counter
finishes at exactly `totalBatches`. -/
theorem batch_insert_progress (fail : Nat → Option String)
    (hf : ∀ n, fail n = none) (name : String) (data : DataFrame) (b : Int)
    (hb : 1 ≤ b)
    (h1 : "title_fa" ∈ data.cols) (h2 : "id" ∈ data.cols)
    (h3 : "Category1" ∈ data.cols) (h4 : "sub_category" ∈ data.cols) :
    (batch_insert_to_chromadb fail name data b).pbarTotal
        = some (Int.ofNat (cdiv data.rows.length b.toNat))
    ∧ (batch_insert_to_chromadb fail name data b).result
        = Except.ok (cdiv data.rows.length b.toNat)
    ∧ (batch_insert_to_chromadb fail name data b).ops
        = StoreOp.openCollection name :: (create_batches data b).map (fun batch =>
            StoreOp.add
              (batch.rows.map fun p => p.2 "id")
              (batch.rows.map fun p => p.2 "title_fa")
              (batch.rows.map fun p => ⟨p.2 "Category1", p.2 "sub_category"⟩))
    ∧ (create_batches data b).length = cdiv data.rows.length b.toNat := by
  rw [batch_insert_all_ok fail hf name data b hb h1 h2 h3 h4]
  exact ⟨rfl, rfl, rfl, create_batches_length data b hb⟩

/-- Witness for C7: six rows, batch size 2, a store that never fails;
the progress counter ends at 3 = ceil(6/2). -/
theorem batch_insert_progress_witness :
    (∀ n, noFail n = none) ∧ ((1 : Int) ≤ 2)
    ∧ ("title_fa" ∈ dfB.cols) ∧ ("id" ∈ dfB.cols) ∧ ("Category1" ∈ dfB.cols)
    ∧ ("sub_category" ∈ dfB.cols)
    ∧ ((batch_insert_to_chromadb noFail "products" dfB 2).pbarTotal
          = some (Int.ofNat (cdiv dfB.rows.length (2 : Int).toNat))
      ∧ (batch_insert_to_chromadb noFail "products" dfB 2).result
          = Except.ok (cdiv dfB.rows.length (2 : Int).toNat)
      ∧ (batch_insert_to_chromadb noFail "products" dfB 2).ops
          = StoreOp.openCollection "products"
              :: (create_batches dfB 2).map (fun batch =>
                StoreOp.add
                  (batch.rows.map fun p => p.2 "id")
                  (batch.rows.map fun p => p.2 "title_fa")
                  (batch.rows.map fun p => ⟨p.2 "Category1", p.2 "sub_category"⟩))
      ∧ (create_batches dfB 2).length = cdiv dfB.rows.length (2 : Int).toNat) :=
  ⟨fun _ => rfl, by decide, by decide, by decide, by decide, by decide,
    batch_insert_progress noFail (fun _ => rfl) "products" dfB 2 (by decide)
      (by decide) (by decide) (by decide) (by decide)⟩

/-- C8: for an empty input Record Set with the dataset schema and any
batch size `b ≥ 1`, `clean` returns an empty Record Set, the Batcher
yields zero batches, and the Ingestor performs no `add` call — its only
store operation is opening the collection. -/
theorem empty_input_no_writes (nf : String → String) (fail : Nat → Option String)
    (name : String) (df : DataFrame) (b : Int)
    (hrows : df.rows = []) (hb : 1 ≤ b)
    (h1 : "id" ∈ df.cols) (h2 : "title_fa" ∈ df.cols) (h3 : "Category1" ∈ df.cols) :
    ∃ out, clean nf df = Except.ok out ∧ out.rows = []
      ∧ create_batches out b = []
      ∧ batch_insert_to_chromadb fail name out b
          = ⟨[StoreOp.openCollection name], some 0, Except.ok 0⟩ := by
  refine ⟨_, clean_ok nf df h1 h2 h3, ?_, ?_, ?_⟩
  · rw [clean_ok_rows, hrows]
    simp [dropDupFirst]
  · rw [create_batches_eq _ b hb, clean_ok_rows, hrows]
    simp [dropDupFirst, cdiv_zero_left]
  · have hout : (((df.drop_duplicates_id).reset_index.mapCol "title_fa" nf).mapCol
        "Category1" nf).rows = [] := by
      rw [clean_ok_rows, hrows]
      simp [dropDupFirst]
    have hbatches : create_batches (((df.drop_duplicates_id).reset_index.mapCol
        "title_fa" nf).mapCol "Category1" nf) b = [] := by
      rw [create_batches_eq _ b hb, hout]
      simp [cdiv_zero_left]
    have htot := fdiv_total_eq 0 b hb
    unfold batch_insert_to_chromadb
    rw [if_neg (by omega : ¬ b = 0), hbatches, hout]
    simp only [ingestLoop, List.length_nil, htot, cdiv_zero_left]
    rfl

/-- Witness for C8 at the concrete empty input with batch size 3. -/
theorem empty_input_no_writes_witness :
    (dfEmpty.rows = []) ∧ ((1 : Int) ≤ 3) ∧ ("id" ∈ dfEmpty.cols)
    ∧ ("title_fa" ∈ dfEmpty.cols) ∧ ("Category1" ∈ dfEmpty.cols)
    ∧ (∃ out, clean (fun s => s) dfEmpty = Except.ok out ∧ out.rows = []
        ∧ create_batches out 3 = []
        ∧ batch_insert_to_chromadb noFail "products" out 3
            = ⟨[StoreOp.openCollection "products"], some 0, Except.ok 0⟩) :=
  ⟨rfl, by decide, by decide, by decide, by decide,
    empty_input_no_writes (fun s => s) noFail "products" dfEmpty 3 rfl
      (by decide) (by decide) (by decide) (by decide)⟩

/-- C3 counterexample: the claim "for every non-positive batch size,
ingestion fails with a batch-size error raised before any collection is
opened" is false on the code. With `batch_size = -1` ingestion raises no
error at all (it returns normally having written nothing), and with
`batch_size = 0` the collection has already been opened when the error
(a ZeroDivisionError, not a batch-size validation error) is raised. -/
theorem batch_insert_nonpositive_counterexample :
    (batch_insert_to_chromadb noFail "products" dfB (-1)).result = Except.ok 0
    ∧ (batch_insert_to_chromadb noFail "products" dfB 0).ops
        = [StoreOp.openCollection "products"]
    ∧ (batch_insert_to_chromadb noFail "products" dfB 0).result
        = Except.error PyError.zeroDivisionError :=
  ⟨rfl, rfl, rfl⟩

/-- C3 (amended): for every non-positive batch size the collection is
opened first and no record is ever written; with `batch_size = 0` the
run then fails with a ZeroDivisionError from the
`(len(data) + batch_size - 1) // batch_size` expression, while with a
negative batch size no error is raised — the batch loop runs zero times
and ingestion returns normally. -/
theorem batch_insert_nonpositive (fail : Nat → Option String) (name : String)
    (df : DataFrame) (b : Int) (hb : b ≤ 0) :
    (batch_insert_to_chromadb fail name df b).ops = [StoreOp.openCollection name]
    ∧ (batch_insert_to_chromadb fail name df b).result
        = (if b = 0 then Except.error PyError.zeroDivisionError else Except.ok 0) := by
  by_cases h0 : b = 0
  · subst h0
    simp [batch_insert_to_chromadb]
  · have hneg : ¬ 1 ≤ b := by omega
    unfold batch_insert_to_chromadb
    rw [if_neg h0]
    simp only [create_batches, pyRange, if_neg hneg, List.map_nil]
    simp [ingestLoop, h0]

/-- Witness for the amended C3 at `batch_size = 0`. -/
theorem batch_insert_nonpositive_witness :
    ((0 : Int) ≤ 0)
    ∧ ((batch_insert_to_chromadb noFail "products" dfA 0).ops
          = [StoreOp.openCollection "products"]
      ∧ (batch_insert_to_chromadb noFail "products" dfA 0).result
          = (if (0 : Int) = 0 then Except.error PyError.zeroDivisionError
             else Except.ok 0)) :=
  ⟨by decide, batch_insert_nonpositive noFail "products" dfA 0 (by decide)⟩

/-- C4 counterexample: the surfaced error does not identify the
offending batch index. Two runs that fail at different batch indices
(index 0 and index 1, as their distinct persisted-write counts show)
surface the *identical* error value — the store's own message,
unchanged — so the caller cannot read the offending batch index off the
error. -/
theorem storeError_does_not_identify_batch :
    (batch_insert_to_chromadb (failAt 0 "disk full") "products" dfB 2).result
        = Except.error (PyError.storeError "disk full")
    ∧ (batch_insert_to_chromadb (failAt 1 "disk full") "products" dfB 2).result
        = Except.error (PyError.storeError "disk full")
    ∧ (batch_insert_to_chromadb (failAt 0 "disk full") "products" dfB 2).ops.length
        = 1
    ∧ (batch_insert_to_chromadb (failAt 1 "disk full") "products" dfB 2).ops.length
        = 2 :=
  ⟨rfl, rfl, rfl, rfl⟩

/-- C4 (amended): if the store write for batch `k` fails, ingestion
halts immediately with no retry — the store trace consists of the
collection open plus exactly the `add` calls of batches `0..k-1` (which
remain persisted), batches `k` and later are never attempted, and the
store's own error propagates to the caller unchanged (it carries only
the store's message; the code attaches no batch index to it). -/
theorem ingestion_halts_on_write_failure (fail : Nat → Option String)
    (msg : String) (name : String) (data : DataFrame) (b : Int) (k : Nat)
    (hb : 1 ≤ b)
    (h1 : "title_fa" ∈ data.cols) (h2 : "id" ∈ data.cols)
    (h3 : "Category1" ∈ data.cols) (h4 : "sub_category" ∈ data.cols)
    (hprev : ∀ j, j < k → fail j = none) (hk : fail k = some msg)
    (hlt : k < (create_batches data b).length) :
    batch_insert_to_chromadb fail name data b
      = ⟨StoreOp.openCollection name
            :: ((create_batches data b).take k).map (fun batch =>
              StoreOp.add
                (batch.rows.map fun p => p.2 "id")
                (batch.rows.map fun p => p.2 "title_fa")
                (batch.rows.map fun p => ⟨p.2 "Category1", p.2 "sub_category"⟩)),
          some (Int.ofNat (cdiv data.rows.length b.toNat)),
          Except.error (PyError.storeError msg)⟩
    ∧ ((create_batches data b).take k).length = k := by
  refine ⟨batch_insert_fail_k fail msg name data b k hb h1 h2 h3 h4 hprev hk hlt, ?_⟩
  rw [List.length_take]
  omega

/-- Witness for the amended C4: six rows, batch size 2, store failure
injected on the second `add` call (batch index 1): batch 0 is
persisted, batches 1 and 2 are not attempted. -/
theorem ingestion_halts_on_write_failure_witness :
    ((1 : Int) ≤ 2)
    ∧ ("title_fa" ∈ dfB.cols) ∧ ("id" ∈ dfB.cols) ∧ ("Category1" ∈ dfB.cols)
    ∧ ("sub_category" ∈ dfB.cols)
    ∧ (∀ j, j < 1 → failAt 1 "boom" j = none) ∧ (failAt 1 "boom" 1 = some "boom")
    ∧ (1 < (create_batches dfB 2).length)
    ∧ (batch_insert_to_chromadb (failAt 1 "boom") "products" dfB 2
        = ⟨StoreOp.openCollection "products"
              :: ((create_batches dfB 2).take 1).map (fun batch =>
                StoreOp.add
                  (batch.rows.map fun p => p.2 "id")
                  (batch.rows.map fun p => p.2 "title_fa")
                  (batch.rows.map fun p => ⟨p.2 "Category1", p.2 "sub_category"⟩)),
            some (Int.ofNat (cdiv dfB.rows.length (2 : Int).toNat)),
            Except.error (PyError.storeError "boom")⟩
      ∧ ((create_batches dfB 2).take 1).length = 1) :=
  ⟨by decide, by decide, by decide, by decide, by decide, by decide, rfl, by decide,
    ingestion_halts_on_write_failure (failAt 1 "boom") "boom" "products" dfB 2 1
      (by decide) (by decide) (by decide) (by decide) (by decide)
      (by decide) rfl (by decide)⟩

theorem clean_rows_map_id (nf : String → String) (df : DataFrame) :
    ((((df.drop_duplicates_id).reset_index.mapCol "title_fa" nf).mapCol
        "Category1" nf).rows.map (fun p => p.2 "id"))
      = (dropDupFirst df.rows []).map (fun p => p.2 "id") := by
  rw [clean_ok_rows, List.map_map]
  have h1 : ((fun (p : Nat × Row) => p.2 "id")
        ∘ (fun (p : Nat × Row) => ((p.1 : Nat),
            Row.set (Row.set p.2 "title_fa" (nf (p.2 "title_fa"))) "Category1"
              (nf (Row.set p.2 "title_fa" (nf (p.2 "title_fa")) "Category1")))))
      = (fun (p : Nat × Row) => p.2 "id") := by
    funext p
    exact (cleanRow_fields nf p.2).1
  rw [h1]
  rw [show (fun (p : Nat × Row) => p.2 "id")
      = ((fun (r : Row) => r "id") ∘ Prod.snd) from rfl]
  rw [← List.map_map, List.enum_map_snd, List.map_map]

theorem clean_rows_map_fst (nf : String → String) (df : DataFrame) :
    ((((df.drop_duplicates_id).reset_index.mapCol "title_fa" nf).mapCol
        "Category1" nf).rows.map Prod.fst)
      = List.range ((((df.drop_duplicates_id).reset_index.mapCol "title_fa"
          nf).mapCol "Category1" nf).rows.length) := by
  rw [clean_ok_rows, List.map_map]
  have h1 : ((Prod.fst : Nat × Row → Nat)
        ∘ (fun (p : Nat × Row) => ((p.1 : Nat),
            Row.set (Row.set p.2 "title_fa" (nf (p.2 "title_fa"))) "Category1"
              (nf (Row.set p.2 "title_fa" (nf (p.2 "title_fa")) "Category1")))))
      = (Prod.fst : Nat × Row → Nat) := by
    funext p
    rfl
  rw [h1, List.enum_map_fst]
  simp

theorem clean_rows_getElem (nf : String → String) (df : DataFrame) (k : Nat)
    (hk2 : k < (dropDupFirst df.rows []).length)
    (hk : k < (((df.drop_duplicates_id).reset_index.mapCol "title_fa" nf).mapCol
        "Category1" nf).rows.length) :
    (((df.drop_duplicates_id).reset_index.mapCol "title_fa" nf).mapCol
        "Category1" nf).rows.get ⟨k, hk⟩
      = (k,
          Row.set
            (Row.set (((dropDupFirst df.rows []).get ⟨k, hk2⟩).2) "title_fa"
              (nf ((((dropDupFirst df.rows []).get ⟨k, hk2⟩).2) "title_fa")))
            "Category1"
            (nf (Row.set (((dropDupFirst df.rows []).get ⟨k, hk2⟩).2) "title_fa"
              (nf ((((dropDupFirst df.rows []).get ⟨k, hk2⟩).2) "title_fa"))
              "Category1"))) := by
  rw [List.get_eq_getElem, List.get_eq_getElem]
  simp only [clean_ok_rows nf df, List.getElem_map, List.getElem_enum]

/-- C1: for every input whose schema has the required columns, `clean`
returns a Record Set with pairwise-distinct "id" values; for any id
present in the input, the surviving record derives from the *first*
occurrence in original order (its "id" and all untouched fields equal
those of the first occurrence, its "title_fa" and "Category1" are that
occurrence's values normalized); and the surviving rows are reindexed
to a dense 0-based contiguous order. -/
theorem clean_dedup_first_wins (nf : String → String) (df : DataFrame)
    (h1 : "id" ∈ df.cols) (h2 : "title_fa" ∈ df.cols) (h3 : "Category1" ∈ df.cols) :
    ∃ out, clean nf df = Except.ok out
      ∧ (out.rows.map (fun p => p.2 "id")).Nodup
      ∧ (∀ v p0, df.rows.find? (fun p => p.2 "id" == v) = some p0 →
          ∃ q ∈ out.rows, q.2 "id" = p0.2 "id"
            ∧ q.2 "title_fa" = nf (p0.2 "title_fa")
            ∧ q.2 "Category1" = nf (p0.2 "Category1")
            ∧ ∀ c, c ≠ "title_fa" → c ≠ "Category1" → q.2 c = p0.2 c)
      ∧ out.rows.map Prod.fst = List.range out.rows.length := by
  refine ⟨_, clean_ok nf df h1 h2 h3, ?_, ?_, clean_rows_map_fst nf df⟩
  · rw [clean_rows_map_id nf df]
    exact (dropDupFirst_ids_nodup df.rows []).1
  · intro v p0 hfind
    have hfind2 := dropDupFirst_find? v p0 df.rows [] (by simp) hfind
    have hmem : p0 ∈ dropDupFirst df.rows [] := List.mem_of_find?_eq_some hfind2
    have hmem2 : p0.2 ∈ (dropDupFirst df.rows []).map Prod.snd :=
      List.mem_map_of_mem _ hmem
    obtain ⟨i, _, hmemEnum⟩ := exists_mem_enum_of_mem hmem2
    rw [clean_ok_rows nf df]
    obtain ⟨ha, hb', hc, hd⟩ := cleanRow_fields nf p0.2
    exact ⟨_, List.mem_map_of_mem _ hmemEnum, ha, hb', hc, hd⟩

/-- Witness for C1 at the five-row input with duplicate id "2"
(Scenario A) and the identity normalizer. -/
theorem clean_dedup_first_wins_witness :
    ("id" ∈ dfA.cols) ∧ ("title_fa" ∈ dfA.cols) ∧ ("Category1" ∈ dfA.cols)
    ∧ (∃ out, clean (fun s => s) dfA = Except.ok out
        ∧ (out.rows.map (fun p => p.2 "id")).Nodup
        ∧ (∀ v p0, dfA.rows.find? (fun p => p.2 "id" == v) = some p0 →
            ∃ q ∈ out.rows, q.2 "id" = p0.2 "id"
              ∧ q.2 "title_fa" = (fun s => s) (p0.2 "title_fa")
              ∧ q.2 "Category1" = (fun s => s) (p0.2 "Category1")
              ∧ ∀ c, c ≠ "title_fa" → c ≠ "Category1" → q.2 c = p0.2 c)
        ∧ out.rows.map Prod.fst = List.range out.rows.length) :=
  ⟨by decide, by decide, by decide,
    clean_dedup_first_wins (fun s => s) dfA (by decide) (by decide) (by decide)⟩

/-- C6: for every input Record Set whose schema lacks the required
"id", "title_fa" or "Category1" column, `clean` fails with the
missing-column error (pandas KeyError naming one of the required
columns), and the pipeline performs no store operation at all — in
particular no write is ever attempted. -/
theorem clean_missing_field (nf : String → String) (fail : Nat → Option String)
    (name : String) (df : DataFrame) (b : Int)
    (hmiss : "id" ∉ df.cols ∨ "title_fa" ∉ df.cols ∨ "Category1" ∉ df.cols) :
    ∃ c, c ∈ (["id", "title_fa", "Category1"] : List String)
      ∧ clean nf df = Except.error (PyError.keyError c)
      ∧ runPipeline nf fail name df b = ([], Except.error (PyError.keyError c)) := by
  by_cases h1 : "id" ∈ df.cols
  · by_cases h2 : "title_fa" ∈ df.cols
    · by_cases h3 : "Category1" ∈ df.cols
      · rcases hmiss with h | h | h <;> contradiction
      · refine ⟨"Category1", by simp, ?_⟩
        have hcl : clean nf df = Except.error (PyError.keyError "Category1") := by
          unfold clean
          rw [if_pos h1,
            if_pos (show "title_fa" ∈ ((df.drop_duplicates_id).reset_index).cols
              from h2),
            if_neg (show ¬ "Category1"
              ∈ (((df.drop_duplicates_id).reset_index).mapCol "title_fa" nf).cols
              from h3)]
        exact ⟨hcl, by simp [runPipeline, hcl]⟩
    · refine ⟨"title_fa", by simp, ?_⟩
      have hcl : clean nf df = Except.error (PyError.keyError "title_fa") := by
        unfold clean
        rw [if_pos h1,
          if_neg (show ¬ "title_fa" ∈ ((df.drop_duplicates_id).reset_index).cols
            from h2)]
      exact ⟨hcl, by simp [runPipeline, hcl]⟩
  · refine ⟨"id", by simp, ?_⟩
    have hcl : clean nf df = Except.error (PyError.keyError "id") := by
      unfold clean
      rw [if_neg h1]
    exact ⟨hcl, by simp [runPipeline, hcl]⟩

/-- Witness for C6 at a concrete input lacking the "title_fa" column. -/
theorem clean_missing_field_witness :
    ("id" ∉ dfNoTitle.cols ∨ "title_fa" ∉ dfNoTitle.cols
      ∨ "Category1" ∉ dfNoTitle.cols)
    ∧ (∃ c, c ∈ (["id", "title_fa", "Category1"] : List String)
        ∧ clean (fun s => s) dfNoTitle = Except.error (PyError.keyError c)
        ∧ runPipeline (fun s => s) noFail "products" dfNoTitle 2
            = ([], Except.error (PyError.keyError c))) :=
  ⟨by decide,
    clean_missing_field (fun s => s) noFail "products" dfNoTitle 2 (by decide)⟩

/-- C10: `clean` modifies only the "title_fa" and "Category1" fields.
The surviving rows align one-to-one, in order, with the first-wins
deduplication of the *raw* input rows (so deduplication compares raw,
un-normalized "id" values); each surviving record keeps the exact input
values of "id", "sub_category", and every column other than "title_fa"
and "Category1"; and every surviving row stems from an input row. -/
theorem clean_frame_only_normalized_fields (nf : String → String) (df : DataFrame)
    (h1 : "id" ∈ df.cols) (h2 : "title_fa" ∈ df.cols) (h3 : "Category1" ∈ df.cols) :
    ∃ out, clean nf df = Except.ok out
      ∧ out.rows.length = (dropDupFirst df.rows []).length
      ∧ (∀ k, ∀ hk : k < out.rows.length,
          ∀ hk2 : k < (dropDupFirst df.rows []).length,
          (out.rows.get ⟨k, hk⟩).2 "id"
              = ((dropDupFirst df.rows []).get ⟨k, hk2⟩).2 "id"
          ∧ (out.rows.get ⟨k, hk⟩).2 "sub_category"
              = ((dropDupFirst df.rows []).get ⟨k, hk2⟩).2 "sub_category"
          ∧ ∀ c, c ≠ "title_fa" → c ≠ "Category1" →
              (out.rows.get ⟨k, hk⟩).2 c
                = ((dropDupFirst df.rows []).get ⟨k, hk2⟩).2 c)
      ∧ ∀ p ∈ dropDupFirst df.rows [], p ∈ df.rows := by
  refine ⟨_, clean_ok nf df h1 h2 h3, ?_, ?_,
    fun p hp => dropDupFirst_subset df.rows [] p hp⟩
  · rw [clean_ok_rows]
    simp
  · intro k hk hk2
    rw [clean_rows_getElem nf df k hk2 hk]
    obtain ⟨ha, _, _, hd⟩ :=
      cleanRow_fields nf (((dropDupFirst df.rows []).get ⟨k, hk2⟩).2)
    exact ⟨ha, hd "sub_category" (by decide) (by decide), hd⟩

/-- Witness for C10 at the five-row input with duplicate id "2" and a
non-identity normalizer (so that the untouched-fields claim is
exercised against actual modification of the two normalized columns). -/
theorem clean_frame_only_normalized_fields_witness :
    ("id" ∈ dfA.cols) ∧ ("title_fa" ∈ dfA.cols) ∧ ("Category1" ∈ dfA.cols)
    ∧ (∃ out, clean (fun s => s ++ "!") dfA = Except.ok out
        ∧ out.rows.length = (dropDupFirst dfA.rows []).length
        ∧ (∀ k, ∀ hk : k < out.rows.length,
            ∀ hk2 : k < (dropDupFirst dfA.rows []).length,
            (out.rows.get ⟨k, hk⟩).2 "id"
                = ((dropDupFirst dfA.rows []).get ⟨k, hk2⟩).2 "id"
            ∧ (out.rows.get ⟨k, hk⟩).2 "sub_category"
                = ((dropDupFirst dfA.rows []).get ⟨k, hk2⟩).2 "sub_category"
            ∧ ∀ c, c ≠ "title_fa" → c ≠ "Category1" →
                (out.rows.get ⟨k, hk⟩).2 c
                  = ((dropDupFirst dfA.rows []).get ⟨k, hk2⟩).2 c)
        ∧ ∀ p ∈ dropDupFirst dfA.rows [], p ∈ dfA.rows) :=
  ⟨by decide, by decide, by decide,
    clean_frame_only_normalized_fields (fun s => s ++ "!") dfA
      (by decide) (by decide) (by decide)⟩
